import Mathlib

/-!
Shallow embedding of the Apertus firmware (hoffmajf/apertus):
the gate field node `Apertus_Gate.ino` and the gateway bridge node
`Apertus_Gateway.ino`.  Pure helper functions of the sketches become Lean
functions; the side-effecting loop bodies become functions from an explicit
environment (sensor readings, radio data) to the lists of actions they
perform (pin writes, radio sends, serial output records).
-/

namespace Apertus

/-! ### Gate node: pin assignments and radio ids (Apertus_Gate.ino lines 24-47) -/

def PIN_ACT_OPEN : Nat := 3
def PIN_ACT_CLOSE : Nat := 4
def PIN_ACT_STOP : Nat := 5
def PIN_ACT_LATCH : Nat := 11
def PIN_ACT_UNLATCH : Nat := 12
def PIN_ACT_TIMER : Nat := 13

def PIN_LIMIT_OPEN : Nat := 6
def PIN_LIMIT_CLOSED : Nat := 7
def PIN_PHOTOEYE : Nat := 8
def PIN_FREE_EXIT : Nat := 16

def RF_GATEWAY_ID : Nat := 10
def RF_NODE_ID : Nat := 20

/-! ### Actuator pulses (Apertus_Gate.ino lines 78-91)

A run of the actuator code is modelled as the list of side effects it
performs in order: digitalWrite calls and delays. -/

/-- A side effect on the actuator pins: a digitalWrite (level `true` = HIGH,
`false` = LOW) or a blocking delay in milliseconds. -/
inductive Action where
  | write (pin : Nat) (level : Bool)
  | delayMs (ms : Nat)
deriving DecidableEq, Repr

/-- Model of `pulsePin(pin, ms)`: write HIGH, delay `ms`, write LOW
(Apertus_Gate.ino lines 78-82). -/
def pulsePin (pin : Nat) (ms : Nat) : List Action :=
  [Action.write pin true, Action.delayMs ms, Action.write pin false]

/-- Model of `applyActuatorCommand(cmd)`: strcmp chain over the six command strings;
each match pulses its pin for 200 ms, anything else does nothing
(Apertus_Gate.ino lines 84-91). -/
def applyActuatorCommand (cmd : String) : List Action :=
  if cmd = "OPEN" then pulsePin PIN_ACT_OPEN 200
  else if cmd = "CLOSE" then pulsePin PIN_ACT_CLOSE 200
  else if cmd = "STOP" then pulsePin PIN_ACT_STOP 200
  else if cmd = "LATCH" then pulsePin PIN_ACT_LATCH 200
  else if cmd = "UNLATCH" then pulsePin PIN_ACT_UNLATCH 200
  else if cmd = "TIMER_CLOSE" then pulsePin PIN_ACT_TIMER 200
  else []

/-- The closed command vocabulary of the gate node. -/
def commandVocabulary : List String :=
  ["OPEN", "CLOSE", "STOP", "LATCH", "UNLATCH", "TIMER_CLOSE"]

/-- The six actuator output pins. -/
def actuatorPins : List Nat :=
  [PIN_ACT_OPEN, PIN_ACT_CLOSE, PIN_ACT_STOP,
   PIN_ACT_LATCH, PIN_ACT_UNLATCH, PIN_ACT_TIMER]

/-- Replay a list of pin writes over a pin-state map (`true` = HIGH). -/
def applyTrace (s : Nat → Bool) : List Action → (Nat → Bool)
  | [] => s
  | Action.write p lvl :: rest => applyTrace (fun q => if q = p then lvl else s q) rest
  | Action.delayMs _ :: rest => applyTrace s rest

/-- The actuator-pin writes performed by `setup()`
(Apertus_Gate.ino lines 137-142): every actuator output driven LOW. -/
def setupActuatorWrites : List Action :=
  [Action.write PIN_ACT_OPEN false, Action.write PIN_ACT_CLOSE false,
   Action.write PIN_ACT_STOP false, Action.write PIN_ACT_LATCH false,
   Action.write PIN_ACT_UNLATCH false, Action.write PIN_ACT_TIMER false]

/-- Number of HIGH writes in an action trace. -/
def countHighWrites (trace : List Action) : Nat :=
  (trace.filter fun a => match a with
    | Action.write _ true => true
    | _ => false).length

/-! ### Battery percentage (Apertus_Gate.ino lines 61-62, 93-98)

Float arithmetic of the sketch is embedded over ℚ.  The C cast
`(int)(pct * 100.0f + 0.5f)` truncates toward zero; in the branch where it
runs the operand is strictly positive, so it agrees with the floor. -/

def BATTERY_VOLTS_MIN : ℚ := 11.5
def BATTERY_VOLTS_MAX : ℚ := 13.6

def batteryPctFromVoltage (v : ℚ) : ℤ :=
  if v ≤ BATTERY_VOLTS_MIN then 0
  else if v ≥ BATTERY_VOLTS_MAX then 100
  else ⌊(v - BATTERY_VOLTS_MIN) / (BATTERY_VOLTS_MAX - BATTERY_VOLTS_MIN) * 100 + 1/2⌋

/-! ### Gate state and telemetry snapshot (Apertus_Gate.ino lines 100-133) -/

/-- The gate_state string computed from the two limit-switch readings
(Apertus_Gate.ino lines 113-116): initialised to "unknown", then the
if / else-if chain. -/
def gateState (limitOpen limitClosed : Bool) : String :=
  if limitOpen && !limitClosed then "open"
  else if limitClosed && !limitOpen then "closed"
  else if !limitOpen && !limitClosed then "moving"
  else "unknown"

/-- The sensor environment a telemetry cycle reads: digital pin levels
(`true` = HIGH), the two ADC-derived voltages, radio RSSI and temperature,
and the uptime counter. -/
structure SensorEnv where
  digital : Nat → Bool
  vbatt : ℚ
  vsolar : ℚ
  rssi : ℤ
  radioTempC : ℤ
  uptimeS : Nat

/-- Model of `readActiveLow(pin)`: digitalRead(pin) == LOW (Apertus_Gate.ino line 76). -/
def readActiveLow (env : SensorEnv) (pin : Nat) : Bool :=
  env.digital pin = false

/-- The telemetry snapshot assembled by `sendTelemetryToGateway`
(field order as in the JSON payload, Apertus_Gate.ino lines 118-130). -/
structure TelemetrySnapshot where
  src : Nat
  gate_state : String
  limit_open : Bool
  limit_closed : Bool
  photoeye_blocked : Bool
  free_exit : Bool
  battery_voltage : ℚ
  battery_pct : ℤ
  solar_voltage : ℚ
  charging : Bool
  rssi : ℤ
  radio_temp_c : ℤ
  uptime_s : Nat
deriving DecidableEq, Repr

/-- Body of `sendTelemetryToGateway` (Apertus_Gate.ino lines 100-130):
read the sensors, derive charging and gate_state, build the snapshot. -/
def buildTelemetry (env : SensorEnv) : TelemetrySnapshot :=
  let limitOpen := readActiveLow env PIN_LIMIT_OPEN
  let limitClosed := readActiveLow env PIN_LIMIT_CLOSED
  { src := RF_NODE_ID
    gate_state := gateState limitOpen limitClosed
    limit_open := limitOpen
    limit_closed := limitClosed
    photoeye_blocked := readActiveLow env PIN_PHOTOEYE
    free_exit := readActiveLow env PIN_FREE_EXIT
    battery_voltage := env.vbatt
    battery_pct := batteryPctFromVoltage env.vbatt
    solar_voltage := env.vsolar
    charging := decide (env.vsolar > env.vbatt + 0.2)
    rssi := env.rssi
    radio_temp_c := env.radioTempC
    uptime_s := env.uptimeS }

/-- A payload sent over the radio by the gate node: either raw text or a
telemetry snapshot. -/
inductive RadioMsg where
  | text (s : String)
  | telemetry (t : TelemetrySnapshot)
deriving DecidableEq, Repr

/-- Model of `sendTelemetryToGateway()` as a radio send: destination and payload
(Apertus_Gate.ino line 132). -/
def sendTelemetryToGateway (env : SensorEnv) : Nat × RadioMsg :=
  (RF_GATEWAY_ID, RadioMsg.telemetry (buildTelemetry env))

/-- The receive branch of the gate node's `loop()`
(Apertus_Gate.ino lines 169-184): copy at most 127 payload bytes into the
command buffer, apply the actuator command, then unconditionally send "ACK"
to the gateway and a fresh telemetry snapshot.  Returns the actuator trace
and the radio sends, in order. -/
def onRadioReceive (env : SensorEnv) (data : List Char) : List Action × List (Nat × RadioMsg) :=
  let cmd : String := ⟨data.take 127⟩
  (applyActuatorCommand cmd,
   [(RF_GATEWAY_ID, RadioMsg.text "ACK"), sendTelemetryToGateway env])



/-! ### Gateway bridge node (Apertus_Gateway.ino)

The gateway translates between the radio link and the USB serial line.  Its
serial output is modelled as structured records plus the exact text each
record prints; the radio `sendWithRetry` is an oracle from (8-bit
destination, payload bytes) to its boolean result. -/

def SERIAL_BUF_LEN : Nat := 512

def RH_RF69_MAX_MESSAGE_LEN : Nat := 60

/-- A structured record printed on the gateway's serial side by
`forwardSerialToRadio` (Apertus_Gateway.ino lines 44-82). -/
inductive SerialEvent where
  | errUnknownSerialCmd (line : String)
  | errBadFormat
  | errEmptyPayload
  | sentTo (dest : ℤ) (payloadEcho : String)
  | sentErrorTo (dest : ℤ)
deriving DecidableEq, Repr

/-- Digit-accumulation loop of C `atoi`: consume leading decimal digits. -/
def atoiDigits : List Char → Nat → Nat
  | [], acc => acc
  | c :: cs, acc => if c.isDigit then atoiDigits cs (10 * acc + (c.toNat - 48)) else acc

/-- Model of C `atoi`: skip leading whitespace, an optional sign, then the
leading run of digits; no digits gives 0. -/
def atoi (s : List Char) : ℤ :=
  let t := s.dropWhile fun c =>
    c == ' ' || c == '\t' || c == '\n' || c == '\x0b' || c == '\x0c' || c == '\r'
  match t with
  | '-' :: rest => -(atoiDigits rest 0 : ℤ)
  | '+' :: rest => (atoiDigits rest 0 : ℤ)
  | _ => (atoiDigits t 0 : ℤ)

/-- Model of `strchr(p, ':')` followed by `colon + 1`: the suffix after the
first colon, or `none` when there is no colon. -/
def afterFirstColon : List Char → Option (List Char)
  | [] => none
  | c :: cs => if c = ':' then some cs else afterFirstColon cs

/-- Trailing-trim loop of `forwardSerialToRadio` (Apertus_Gateway.ino line
60): drop the trailing run of newline / carriage-return bytes. -/
def rstripNL (l : List Char) : List Char :=
  (l.reverse.dropWhile fun c => c == '\n' || c == '\r').reverse

/-- Model of `forwardSerialToRadio` (Apertus_Gateway.ino lines 44-82).
The `line.take 3 = ['T','O',':']` test is `strncmp(line, "TO:", 3) == 0`;
`sendBuf` holds at most 191 payload bytes; `(dest % 256).toNat` is the
`(uint8_t)dest` cast at the send call.  Returns the serial events printed and
the radio sends performed, in order. -/
def forwardSerialToRadio (send : Nat → List Char → Bool) (line : List Char) :
    List SerialEvent × List (Nat × List Char) :=
  if line.take 3 ≠ ['T', 'O', ':'] then
    ([SerialEvent.errUnknownSerialCmd ⟨line⟩], [])
  else
    let p := line.drop 3
    let dest := atoi p
    match afterFirstColon p with
    | none => ([SerialEvent.errBadFormat], [])
    | some payload =>
      let trimmed := rstripNL payload
      if trimmed.length = 0 then ([SerialEvent.errEmptyPayload], [])
      else
        let buf := trimmed.take 191
        let dest8 := (dest % 256).toNat
        if send dest8 buf then
          ([SerialEvent.sentTo dest ⟨payload⟩], [(dest8, buf)])
        else
          ([SerialEvent.sentErrorTo dest], [(dest8, buf)])

/-- Escaping loop of the gateway's inbound radio handler (Apertus_Gateway.ino
lines 99-103): print a backslash before every quote or backslash byte,
everything else verbatim. -/
def escapePayloadChars : List Char → List Char
  | [] => []
  | c :: cs =>
    if c == '"' || c == '\\' then '\\' :: c :: escapePayloadChars cs
    else c :: escapePayloadChars cs

/-- The single JSON record printed for a received radio frame
(Apertus_Gateway.ino lines 93-104); the payload is truncated to
`RH_RF69_MAX_MESSAGE_LEN` bytes as in line 89. -/
def inboundRadioLine (src : ℤ) (rssi : ℤ) (data : List Char) : String :=
  "\x7b\"src\":" ++ (toString src ++ (",\"rssi\":" ++ (toString rssi ++
    (",\"payload\":\"" ++
    (String.mk (escapePayloadChars (data.take RH_RF69_MAX_MESSAGE_LEN)) ++ "\"\x7d")))))

/-- The receive branch of the gateway loop (Apertus_Gateway.ino lines 85-105):
one successfully received frame prints exactly this list of serial records. -/
def onRadioFrame (src rssi : ℤ) (data : List Char) : List String :=
  [inboundRadioLine src rssi data]

/-- The exact serial text printed for each `SerialEvent`
(Apertus_Gateway.ino lines 46-48, 55, 62, 72-76, 78-80). -/
def renderEvent : SerialEvent → String
  | SerialEvent.errUnknownSerialCmd line =>
      "\x7b\"err\":\"unknown_serial_cmd\",\"line\":\"" ++ (line ++ "\"\x7d")
  | SerialEvent.errBadFormat => "\x7b\"err\":\"bad_format\"\x7d"
  | SerialEvent.errEmptyPayload => "\x7b\"err\":\"empty_payload\"\x7d"
  | SerialEvent.sentTo dest payloadEcho =>
      "\x7b\"sent_to\":" ++ (toString dest ++ (",\"payload\":\"" ++ (payloadEcho ++ "\"\x7d")))
  | SerialEvent.sentErrorTo dest =>
      "\x7b\"sent_error_to\":" ++ (toString dest ++ "\x7d")

/-- The readiness marker `println` of `setup()` (Apertus_Gateway.ino line 41). -/
def readyMarker : String := "\x7b\"gateway\":\"apertus_ready\"\x7d"

/-- Serial lines printed by the gateway's `setup()` (Apertus_Gateway.ino lines
29-42) as a function of whether `rf69.initialize` succeeded: a status line on
either branch, then the readiness marker, unconditionally. -/
def setupSerialLines (initOk : Bool) : List String :=
  [if initOk then "Apertus Gateway RFM69 initialized" else "RFM69 init failed",
   readyMarker]

/-- Serial accumulation state of the gateway loop: `serialPos` and the bytes
stored in `serialBuf[0..pos)`, kept in reverse arrival order (so a store at
`serialBuf[serialPos++]` is a cons). -/
structure SerialBufState where
  pos : Nat
  revBuf : List Char
deriving DecidableEq, Repr

/-- One byte of the serial polling loop (Apertus_Gateway.ino lines 107-117):
skip carriage returns; on a newline deliver the buffered line when nonempty
and reset; otherwise store the byte while `serialPos < SERIAL_BUF_LEN - 1`,
and when the buffer is full reset `serialPos` to 0, dropping both the buffer
and the incoming byte. -/
def serialStep (st : SerialBufState) (c : Char) : SerialBufState × Option (List Char) :=
  if c == '\r' then (st, none)
  else if c == '\n' then
    (⟨0, []⟩, if st.pos > 0 then some st.revBuf.reverse else none)
  else if st.pos < SERIAL_BUF_LEN - 1 then
    (⟨st.pos + 1, c :: st.revBuf⟩, none)
  else (⟨0, []⟩, none)

/-- Run the serial polling loop over a byte stream, collecting the complete
lines handed to `forwardSerialToRadio`, in order. -/
def processSerial (st : SerialBufState) : List Char → SerialBufState × List (List Char)
  | [] => (st, [])
  | c :: cs =>
    let r := serialStep st c
    let rest := processSerial r.1 cs
    (rest.1, r.2.toList ++ rest.2)

/-! ### Theorems -/

lemma interp_mono {a b : ℚ} (hab : a ≤ b) :
    (a - BATTERY_VOLTS_MIN) / (BATTERY_VOLTS_MAX - BATTERY_VOLTS_MIN) * 100 + 1/2 ≤
    (b - BATTERY_VOLTS_MIN) / (BATTERY_VOLTS_MAX - BATTERY_VOLTS_MIN) * 100 + 1/2 := by
  have hd : BATTERY_VOLTS_MAX - BATTERY_VOLTS_MIN = 21/10 := by
    norm_num [BATTERY_VOLTS_MAX, BATTERY_VOLTS_MIN]
  rw [hd]
  have h1 : (a - BATTERY_VOLTS_MIN) / (21/10) = (a - BATTERY_VOLTS_MIN) * (10/21) := by ring
  have h2 : (b - BATTERY_VOLTS_MIN) / (21/10) = (b - BATTERY_VOLTS_MIN) * (10/21) := by ring
  rw [h1, h2]
  linarith

lemma interp_pos {b : ℚ} (hb : BATTERY_VOLTS_MIN < b) :
    (0:ℚ) ≤ (b - BATTERY_VOLTS_MIN) / (BATTERY_VOLTS_MAX - BATTERY_VOLTS_MIN) * 100 + 1/2 := by
  have hd : BATTERY_VOLTS_MAX - BATTERY_VOLTS_MIN = 21/10 := by
    norm_num [BATTERY_VOLTS_MAX, BATTERY_VOLTS_MIN]
  rw [hd]
  have h1 : (b - BATTERY_VOLTS_MIN) / (21/10) = (b - BATTERY_VOLTS_MIN) * (10/21) := by ring
  rw [h1]
  nlinarith

lemma interp_lt_top {a : ℚ} (ha : a < BATTERY_VOLTS_MAX) :
    (a - BATTERY_VOLTS_MIN) / (BATTERY_VOLTS_MAX - BATTERY_VOLTS_MIN) * 100 + 1/2 ≤ 201/2 := by
  have hd : BATTERY_VOLTS_MAX - BATTERY_VOLTS_MIN = 21/10 := by
    norm_num [BATTERY_VOLTS_MAX, BATTERY_VOLTS_MIN]
  have hM : BATTERY_VOLTS_MAX = 68/5 := by norm_num [BATTERY_VOLTS_MAX]
  rw [hd]
  have h1 : (a - BATTERY_VOLTS_MIN) / (21/10) = (a - BATTERY_VOLTS_MIN) * (10/21) := by ring
  rw [h1]
  have hm : BATTERY_VOLTS_MIN = 23/2 := by norm_num [BATTERY_VOLTS_MIN]
  rw [hm]
  rw [hM] at ha
  nlinarith

lemma batteryPct_mono {v₁ v₂ : ℚ} (h : v₁ ≤ v₂) :
    batteryPctFromVoltage v₁ ≤ batteryPctFromVoltage v₂ := by
  unfold batteryPctFromVoltage
  have hlt : BATTERY_VOLTS_MIN < BATTERY_VOLTS_MAX := by
    norm_num [BATTERY_VOLTS_MIN, BATTERY_VOLTS_MAX]
  split_ifs with h1 h2 h3 h4 h5 h6 h7 h8
  · exact le_refl 0
  · norm_num
  · push_neg at h2
    exact Int.le_floor.mpr (by exact_mod_cast interp_pos h2)
  · linarith
  · exact le_refl 100
  · push_neg at h6
    linarith
  · push_neg at h1
    linarith
  · push_neg at h4
    have hb := Int.floor_le_floor (interp_lt_top h4)
    have hc : (⌊(201/2 : ℚ)⌋ : ℤ) = 100 := by norm_num
    omega
  · exact Int.floor_le_floor (interp_mono h)

lemma applyTrace_pulsePin (s : Nat → Bool) (q ms p : Nat) :
    applyTrace s (pulsePin q ms) p = if p = q then false else s p := by
  simp only [pulsePin, applyTrace]
  split_ifs <;> rfl

/-- C1: gate_state in the telemetry snapshot is the pure four-case table of the
two limit-switch readings, and depends on nothing else in the environment. -/
theorem gate_state_pure_of_limits :
    (gateState true false = "open" ∧ gateState false true = "closed" ∧
     gateState false false = "moving" ∧ gateState true true = "unknown") ∧
    (∀ env : SensorEnv, (buildTelemetry env).gate_state =
        gateState (readActiveLow env PIN_LIMIT_OPEN) (readActiveLow env PIN_LIMIT_CLOSED)) ∧
    (∀ e₁ e₂ : SensorEnv,
        readActiveLow e₁ PIN_LIMIT_OPEN = readActiveLow e₂ PIN_LIMIT_OPEN →
        readActiveLow e₁ PIN_LIMIT_CLOSED = readActiveLow e₂ PIN_LIMIT_CLOSED →
        (buildTelemetry e₁).gate_state = (buildTelemetry e₂).gate_state) := by
  refine ⟨by decide, fun env => rfl, fun e₁ e₂ h1 h2 => ?_⟩
  simp only [buildTelemetry]
  rw [h1, h2]

theorem gate_state_pure_of_limits_witness :
    (buildTelemetry ⟨fun _ => false, 12, 13, -60, 25, 5⟩).gate_state =
    (buildTelemetry ⟨fun _ => false, 11, 0, -90, 10, 99⟩).gate_state :=
  gate_state_pure_of_limits.2.2 _ _ rfl rfl

/-- C2: batteryPctFromVoltage clamps to 0 at or below 11.5 V, to 100 at or
above 13.6 V, rounds the linear interpolation to the nearest integer in
between, is monotone, and maps 12.55 V to 50. -/
theorem batteryPct_piecewise_monotone :
    (∀ v : ℚ, v ≤ 11.5 → batteryPctFromVoltage v = 0) ∧
    (∀ v : ℚ, 13.6 ≤ v → batteryPctFromVoltage v = 100) ∧
    (∀ v : ℚ, 11.5 < v → v < 13.6 →
        batteryPctFromVoltage v = round ((v - 11.5) / (13.6 - 11.5) * 100)) ∧
    (∀ v₁ v₂ : ℚ, v₁ ≤ v₂ → batteryPctFromVoltage v₁ ≤ batteryPctFromVoltage v₂) ∧
    batteryPctFromVoltage 12.55 = 50 := by
  refine ⟨?_, ?_, ?_, fun v₁ v₂ h => batteryPct_mono h, ?_⟩
  · intro v hv
    unfold batteryPctFromVoltage
    rw [if_pos (by simpa [BATTERY_VOLTS_MIN] using hv)]
  · intro v hv
    unfold batteryPctFromVoltage
    rw [if_neg (by simp only [BATTERY_VOLTS_MIN, not_le]; linarith),
        if_pos (by simpa [BATTERY_VOLTS_MAX] using hv)]
  · intro v h1 h2
    rw [round_eq]
    unfold batteryPctFromVoltage
    rw [if_neg (by simp only [BATTERY_VOLTS_MIN, not_le]; linarith),
        if_neg (by simp only [BATTERY_VOLTS_MAX, ge_iff_le, not_le]; linarith)]
    norm_num [BATTERY_VOLTS_MIN, BATTERY_VOLTS_MAX]
  · norm_num [batteryPctFromVoltage, BATTERY_VOLTS_MIN, BATTERY_VOLTS_MAX, Int.floor_eq_iff]

theorem batteryPct_piecewise_monotone_witness :
    batteryPctFromVoltage 11.2 = 0 ∧ batteryPctFromVoltage 14 = 100 ∧
    batteryPctFromVoltage 12 = round ((12 - 11.5) / (13.6 - 11.5) * 100 : ℚ) ∧
    batteryPctFromVoltage 12 ≤ batteryPctFromVoltage 13 :=
  ⟨batteryPct_piecewise_monotone.1 11.2 (by norm_num),
   batteryPct_piecewise_monotone.2.1 14 (by norm_num),
   batteryPct_piecewise_monotone.2.2.1 12 (by norm_num) (by norm_num),
   batteryPct_piecewise_monotone.2.2.2.1 12 13 (by norm_num)⟩

/-- C3: each of the six exact command strings pulses exactly its actuator pin
for 200 ms; any other text produces no actuator action at all. -/
theorem applyActuatorCommand_vocabulary :
    (applyActuatorCommand "OPEN" = pulsePin PIN_ACT_OPEN 200 ∧
     applyActuatorCommand "CLOSE" = pulsePin PIN_ACT_CLOSE 200 ∧
     applyActuatorCommand "STOP" = pulsePin PIN_ACT_STOP 200 ∧
     applyActuatorCommand "LATCH" = pulsePin PIN_ACT_LATCH 200 ∧
     applyActuatorCommand "UNLATCH" = pulsePin PIN_ACT_UNLATCH 200 ∧
     applyActuatorCommand "TIMER_CLOSE" = pulsePin PIN_ACT_TIMER 200) ∧
    (∀ cmd : String, cmd ∉ commandVocabulary → applyActuatorCommand cmd = []) := by
  refine ⟨by decide, fun cmd h => ?_⟩
  simp only [commandVocabulary, List.mem_cons, List.not_mem_nil, or_false, not_or] at h
  obtain ⟨h1, h2, h3, h4, h5, h6⟩ := h
  simp [applyActuatorCommand, h1, h2, h3, h4, h5, h6]

theorem applyActuatorCommand_vocabulary_witness :
    applyActuatorCommand "open" = [] :=
  applyActuatorCommand_vocabulary.2 "open" (by decide)

/-- C9: after any received radio frame the gate node sends exactly "ACK" to the
gateway followed by a fresh telemetry snapshot, whether or not the decoded
text is a recognised command. -/
theorem onRadioReceive_unconditional_ack_telemetry :
    ∀ (env : SensorEnv) (data : List Char),
      (onRadioReceive env data).2 =
        [(RF_GATEWAY_ID, RadioMsg.text "ACK"),
         (RF_GATEWAY_ID, RadioMsg.telemetry (buildTelemetry env))] :=
  fun _ _ => rfl

/-- C10: setup drives all six actuator outputs LOW; pulsePin ends by writing
LOW to the pin it asserted; a command performs at most one HIGH write; and an
all-LOW actuator state is restored after any command trace. -/
theorem actuator_pins_low_invariant :
    (∀ s : Nat → Bool, ∀ p ∈ actuatorPins, applyTrace s setupActuatorWrites p = false) ∧
    (∀ pin ms : Nat, (pulsePin pin ms).getLast? = some (Action.write pin false)) ∧
    (∀ cmd : String, countHighWrites (applyActuatorCommand cmd) ≤ 1) ∧
    (∀ (s : Nat → Bool) (cmd : String), (∀ p ∈ actuatorPins, s p = false) →
        ∀ p ∈ actuatorPins, applyTrace s (applyActuatorCommand cmd) p = false) := by
  refine ⟨?_, fun pin ms => rfl, ?_, ?_⟩
  · intro s p hp
    simp only [actuatorPins, PIN_ACT_OPEN, PIN_ACT_CLOSE, PIN_ACT_STOP, PIN_ACT_LATCH,
      PIN_ACT_UNLATCH, PIN_ACT_TIMER, List.mem_cons, List.not_mem_nil, or_false] at hp
    rcases hp with rfl | rfl | rfl | rfl | rfl | rfl <;>
      simp [applyTrace, setupActuatorWrites, PIN_ACT_OPEN, PIN_ACT_CLOSE, PIN_ACT_STOP,
        PIN_ACT_LATCH, PIN_ACT_UNLATCH, PIN_ACT_TIMER]
  · intro cmd
    unfold applyActuatorCommand
    split_ifs <;> simp [countHighWrites, pulsePin]
  · intro s cmd hs p hp
    unfold applyActuatorCommand
    split_ifs
    all_goals first
      | exact hs p hp
      | ((rw [applyTrace_pulsePin]; split_ifs) <;> first | rfl | exact hs p hp)

theorem actuator_pins_low_invariant_witness :
    applyTrace (fun _ => true) setupActuatorWrites PIN_ACT_STOP = false ∧
    applyTrace (fun _ => false) (applyActuatorCommand "OPEN") PIN_ACT_CLOSE = false :=
  ⟨actuator_pins_low_invariant.1 (fun _ => true) PIN_ACT_STOP (by decide),
   actuator_pins_low_invariant.2.2.2 (fun _ => false) "OPEN" (fun p _ => rfl)
     PIN_ACT_CLOSE (by decide)⟩



lemma escapePayloadChars_eq_flatMap (l : List Char) :
    escapePayloadChars l =
      l.flatMap fun c => if c == '"' || c == '\\' then ['\\', c] else [c] := by
  induction l with
  | nil => rfl
  | cons c cs ih =>
    simp only [escapePayloadChars, List.flatMap_cons, ih]
    split_ifs <;> rfl

lemma append_ne_of_take3 (A x M : String) (h3 : 3 ≤ A.data.length)
    (hne : A.data.take 3 ≠ M.data.take 3) : A ++ x ≠ M := by
  intro h
  apply hne
  have hd := congrArg String.data h
  rw [String.data_append] at hd
  have ht : (A.data ++ x.data).take 3 = M.data.take 3 := by rw [hd]
  rwa [List.take_append_of_le_length h3] at ht

/-- C4: a malformed outbound serial line (missing TO: prefix, missing colon
after the destination id, or empty payload after trimming) yields exactly one
structured error event on serial and no radio send at all. -/
theorem forwardSerialToRadio_malformed :
    ∀ (send : Nat → List Char → Bool) (line : List Char),
      (line.take 3 ≠ ['T', 'O', ':'] ∨
       afterFirstColon (line.drop 3) = none ∨
       (∃ payload, afterFirstColon (line.drop 3) = some payload ∧ rstripNL payload = [])) →
      (forwardSerialToRadio send line).2 = [] ∧
      ∃ e, (forwardSerialToRadio send line).1 = [e] ∧
        (e = SerialEvent.errUnknownSerialCmd ⟨line⟩ ∨ e = SerialEvent.errBadFormat ∨
         e = SerialEvent.errEmptyPayload) := by
  intro send line h
  unfold forwardSerialToRadio
  dsimp only
  split_ifs with hp
  · exact ⟨rfl, ⟨_, rfl, Or.inl rfl⟩⟩
  · push_neg at hp
    split
    · exact ⟨rfl, ⟨_, rfl, Or.inr (Or.inl rfl)⟩⟩
    next payload heq =>
      have hlen : (rstripNL payload).length = 0 := by
        rcases h with h1 | h2 | ⟨pl, hpl, hple⟩
        · exact absurd hp h1
        · rw [heq] at h2
          cases h2
        · rw [heq] at hpl
          injection hpl with hpl'
          subst hpl'
          rw [hple]
          rfl
      rw [if_pos hlen]
      exact ⟨rfl, ⟨_, rfl, Or.inr (Or.inr rfl)⟩⟩

theorem forwardSerialToRadio_malformed_witness :
    (forwardSerialToRadio (fun _ _ => true) "HELLO".data).2 = [] ∧
    ∃ e, (forwardSerialToRadio (fun _ _ => true) "HELLO".data).1 = [e] ∧
      (e = SerialEvent.errUnknownSerialCmd ⟨"HELLO".data⟩ ∨ e = SerialEvent.errBadFormat ∨
       e = SerialEvent.errEmptyPayload) :=
  forwardSerialToRadio_malformed (fun _ _ => true) "HELLO".data (Or.inl (by decide))

/-- C5: on a syntactically valid outbound line TO:(dest):(payload), the gateway
performs exactly one radio send and prints exactly one outcome event matching
the send's boolean result: sent_to on true, sent_error_to on false. -/
theorem forwardSerialToRadio_valid :
    ∀ (send : Nat → List Char → Bool) (line payload : List Char),
      line.take 3 = ['T', 'O', ':'] →
      afterFirstColon (line.drop 3) = some payload →
      rstripNL payload ≠ [] →
      (forwardSerialToRadio send line).2 =
        [((atoi (line.drop 3) % 256).toNat, (rstripNL payload).take 191)] ∧
      (forwardSerialToRadio send line).1 =
        (if send ((atoi (line.drop 3) % 256).toNat) ((rstripNL payload).take 191) then
          [SerialEvent.sentTo (atoi (line.drop 3)) ⟨payload⟩]
        else [SerialEvent.sentErrorTo (atoi (line.drop 3))]) := by
  intro send line payload hp hc hne
  unfold forwardSerialToRadio
  dsimp only
  rw [if_neg (by simp [hp])]
  split
  · next heq =>
    rw [hc] at heq
    cases heq
  · next pl heq =>
    rw [hc] at heq
    injection heq with heq'
    subst heq'
    rw [if_neg (by simpa [List.length_eq_zero] using hne)]
    split_ifs with hs <;> exact ⟨rfl, rfl⟩

theorem forwardSerialToRadio_valid_witness :
    (forwardSerialToRadio (fun _ _ => false) "TO:20:OPEN".data).2 =
      [((atoi ("TO:20:OPEN".data.drop 3) % 256).toNat,
        (rstripNL "20:OPEN".data.tail.tail.tail).take 191)] ∧
    (forwardSerialToRadio (fun _ _ => false) "TO:20:OPEN".data).1 =
      (if (fun (_ : Nat) (_ : List Char) => false) ((atoi ("TO:20:OPEN".data.drop 3) % 256).toNat)
          ((rstripNL "20:OPEN".data.tail.tail.tail).take 191) then
        [SerialEvent.sentTo (atoi ("TO:20:OPEN".data.drop 3)) ⟨"20:OPEN".data.tail.tail.tail⟩]
      else [SerialEvent.sentErrorTo (atoi ("TO:20:OPEN".data.drop 3))]) :=
  forwardSerialToRadio_valid (fun _ _ => false) "TO:20:OPEN".data
    "20:OPEN".data.tail.tail.tail (by decide) (by decide) (by decide)

/-- C6: one received radio frame prints exactly one serial record: the JSON
object carrying the sender id, the signal strength, and the payload with
exactly the quote and backslash bytes escaped by a preceding backslash and
every other byte emitted unchanged. -/
theorem onRadioFrame_single_escaped_json :
    ∀ (src rssi : ℤ) (data : List Char), data.length ≤ RH_RF69_MAX_MESSAGE_LEN →
      onRadioFrame src rssi data =
        ["\x7b\"src\":" ++ toString src ++ ",\"rssi\":" ++ toString rssi ++
         ",\"payload\":\"" ++
         String.mk (data.flatMap fun c => if c == '"' || c == '\\' then ['\\', c] else [c]) ++
         "\"\x7d"] := by
  intro src rssi data h
  unfold onRadioFrame inboundRadioLine
  rw [List.take_of_length_le h, escapePayloadChars_eq_flatMap]
  simp [String.append_assoc]

theorem onRadioFrame_single_escaped_json_witness :
    onRadioFrame 20 (-70) ['a', '"', 'b'] =
      ["\x7b\"src\":" ++ toString (20 : ℤ) ++ ",\"rssi\":" ++ toString (-70 : ℤ) ++
       ",\"payload\":\"" ++
       String.mk (['a', '"', 'b'].flatMap fun c =>
         if c == '"' || c == '\\' then ['\\', c] else [c]) ++
       "\"\x7d"] :=
  onRadioFrame_single_escaped_json 20 (-70) ['a', '"', 'b'] (by decide)



lemma serialStep_inv (st : SerialBufState) (c : Char)
    (hinv : st.revBuf.length = st.pos) (hle : st.pos ≤ SERIAL_BUF_LEN - 1) :
    ((serialStep st c).1.revBuf.length = (serialStep st c).1.pos ∧
     (serialStep st c).1.pos ≤ SERIAL_BUF_LEN - 1) ∧
    ∀ l, (serialStep st c).2 = some l → l.length ≤ SERIAL_BUF_LEN - 1 := by
  unfold serialStep
  split_ifs with h1 h2 h3 h4
  · exact ⟨⟨hinv, hle⟩, fun l hl => by cases hl⟩
  · refine ⟨⟨rfl, by norm_num [SERIAL_BUF_LEN]⟩, fun l hl => ?_⟩
    injection hl with hl'
    subst hl'
    simpa [hinv] using hle
  · exact ⟨⟨rfl, by norm_num [SERIAL_BUF_LEN]⟩, fun l hl => by cases hl⟩
  · refine ⟨⟨by simp [hinv], ?_⟩, fun l hl => by cases hl⟩
    simp only [SERIAL_BUF_LEN] at h4 ⊢
    omega
  · exact ⟨⟨rfl, by norm_num [SERIAL_BUF_LEN]⟩, fun l hl => by cases hl⟩

lemma processSerial_lines_bound : ∀ (input : List Char) (st : SerialBufState),
    st.revBuf.length = st.pos → st.pos ≤ SERIAL_BUF_LEN - 1 →
    ∀ l ∈ (processSerial st input).2, l.length ≤ SERIAL_BUF_LEN - 1 := by
  intro input
  induction input with
  | nil =>
    intro st h1 h2 l hl
    simp [processSerial] at hl
  | cons c cs ih =>
    intro st h1 h2 l hl
    simp only [processSerial] at hl
    rcases List.mem_append.mp hl with hmem | hmem
    · rcases hstep2 : (serialStep st c).2 with _ | l'
      · rw [hstep2] at hmem
        cases hmem
      · rw [hstep2] at hmem
        simp only [Option.toList_some, List.mem_singleton] at hmem
        subst hmem
        exact (serialStep_inv st c h1 h2).2 l hstep2
    · exact ih (serialStep st c).1 (serialStep_inv st c h1 h2).1.1
        (serialStep_inv st c h1 h2).1.2 l hmem

set_option maxRecDepth 100000 in
set_option maxHeartbeats 1000000 in
/-- C7 counterexample: a 600-byte line followed by a newline.  The first 511
bytes fill the buffer, the 512th resets it, the remaining 88 bytes accumulate
afresh, and at the newline that 88-byte tail of the oversized line IS handed
to forwardSerialToRadio, contradicting the claim that no byte of an oversized
line is ever delivered as a line. -/
theorem serial_overflow_tail_delivered :
    (processSerial ⟨0, []⟩ (List.replicate 600 'a' ++ ['\n'])).2 =
      [List.replicate 88 'a'] ∧
    (processSerial ⟨0, []⟩ (List.replicate 600 'a' ++ ['\n'])).2 ≠ [] := by
  decide

/-- C7 amended: when the buffer fills before a newline, the overflowing byte
resets the buffer, discarding the buffered head (which is never delivered:
every delivered line is at most SERIAL_BUF_LEN - 1 bytes); but the bytes after
the overflow accumulate into a fresh buffer, so a tail fragment of the
oversized line can still be delivered at the next newline. -/
theorem serial_overflow_discards_head :
    (∀ (st : SerialBufState) (c : Char), c ≠ '\r' → c ≠ '\n' →
        ¬ st.pos < SERIAL_BUF_LEN - 1 → serialStep st c = (⟨0, []⟩, none)) ∧
    (∀ (input : List Char) (st : SerialBufState),
        st.revBuf.length = st.pos → st.pos ≤ SERIAL_BUF_LEN - 1 →
        ∀ l ∈ (processSerial st input).2, l.length ≤ SERIAL_BUF_LEN - 1) := by
  refine ⟨fun st c h1 h2 h3 => ?_, processSerial_lines_bound⟩
  unfold serialStep
  rw [if_neg (by simp [h1]), if_neg (by simp [h2]), if_neg h3]

theorem serial_overflow_discards_head_witness :
    serialStep ⟨511, List.replicate 511 'a'⟩ 'b' = (⟨0, []⟩, none) ∧
    ['h', 'i'].length ≤ SERIAL_BUF_LEN - 1 :=
  ⟨serial_overflow_discards_head.1 ⟨511, List.replicate 511 'a'⟩ 'b'
      (by decide) (by decide) (by decide),
   serial_overflow_discards_head.2 ['h', 'i', '\n'] ⟨0, []⟩ rfl (by decide)
      ['h', 'i'] (by decide)⟩

/-- C8: the gateway's setup prints the readiness marker exactly once, on both
the success and the failure branch of radio initialization, and no serial
record the gateway loop can print (send outcome, error, or inbound radio JSON)
ever equals the marker again. -/
theorem readyMarker_once_at_setup :
    (∀ ok : Bool, (setupSerialLines ok).count readyMarker = 1) ∧
    (∀ e : SerialEvent, [renderEvent e].count readyMarker = 0) ∧
    (∀ (src rssi : ℤ) (data : List Char),
        (onRadioFrame src rssi data).count readyMarker = 0) := by
  refine ⟨fun ok => ?_, fun e => ?_, fun src rssi data => ?_⟩
  · cases ok <;> decide
  · have hne : renderEvent e ≠ readyMarker := by
      cases e with
      | errUnknownSerialCmd line => exact append_ne_of_take3 _ _ _ (by decide) (by decide)
      | errBadFormat => decide
      | errEmptyPayload => decide
      | sentTo dest payloadEcho => exact append_ne_of_take3 _ _ _ (by decide) (by decide)
      | sentErrorTo dest => exact append_ne_of_take3 _ _ _ (by decide) (by decide)
    simp [List.count_cons, hne]
  · have hne : inboundRadioLine src rssi data ≠ readyMarker :=
      append_ne_of_take3 _ _ _ (by decide) (by decide)
    simp [onRadioFrame, List.count_cons, hne]

end Apertus
